import Mathlib

/-!
Shallow embedding of the Wrap Up mail generator (`src/wumm/src.py`) together
with proofs about its email composition, input validation, and settings
persistence.  Pure functions of the Python source are translated into Lean
functions; the SQLite-backed settings store becomes explicit state passing
over a list of rows; fallible operations return `Except`.
-/

/-- `LOCATION_OPTIONS` (src line 13): the fixed closed set of site names
offered by the location combobox. -/
def LOCATION_OPTIONS : List String := ["서울", "대전", "광주", "구미", "부울경"]

/-- `DAY_OF_WEEK_OPTIONS` (src line 14): the 7 allowed weekday labels. -/
def DAY_OF_WEEK_OPTIONS : List String := ["월", "화", "수", "목", "금", "토", "일"]

/-- `_build_email` (src lines 38-72): renders the title and body from the
input fields.  Python f-string interpolation of an `int` is `toString` of the
`Int`; `resend_reason or "첨부 오류로 인한 재송부"` substitutes the default
exactly when `resend_reason` is the empty string (the only falsy string). -/
def build_email (cardinal_number : Int) (location : String) (name : String)
    (nth_day : Int) (month : Int) (day : Int) (day_of_week : String)
    (resend : Bool) (resend_reason : String) : String × String :=
  let base_subject := "[SSAFY] " ++ toString cardinal_number ++ "기 " ++ location ++
    " 실습코치 " ++ name ++ " " ++ toString nth_day ++ "일차 Wrap Up"
  if resend then
    let reason := if resend_reason = "" then "첨부 오류로 인한 재송부" else resend_reason
    (base_subject ++ " 재송부",
      "안녕하십니까, " ++ toString cardinal_number ++ "기 " ++ location ++ " 실습코치 " ++
        name ++ "입니다.\n\n" ++
        toString month ++ "월 " ++ toString day ++ "일(" ++ day_of_week ++ ") " ++
        toString nth_day ++ "일차 Wrap Up보고서를 " ++ reason ++ " 사유로 재송부드립니다.\n\n" ++
        "특이사항\n- 해당 사항 없음.\n\n감사합니다.\n" ++ name ++ " 드림.")
  else
    (base_subject ++ " 송부",
      "안녕하십니까, " ++ toString cardinal_number ++ "기 " ++ location ++ " 실습코치 " ++
        name ++ "입니다.\n\n" ++
        toString month ++ "월 " ++ toString day ++ "일(" ++ day_of_week ++ ") " ++
        toString nth_day ++ "일차 Wrap Up 보고서를 첨부하여 송부드립니다.\n\n" ++
        "특이사항\n- 해당 사항 없음.\n\n감사합니다.\n" ++ name ++ " 드림.")

/-- The fixed default resend reason hardcoded at src line 53. -/
def DEFAULT_RESEND_REASON : String := "첨부 오류로 인한 재송부"

/-- The resend body up to (and excluding) the reason slot, as concatenated at
src lines 55-56. -/
def resend_body_pre (cardinal_number : Int) (location : String) (name : String)
    (nth_day : Int) (month : Int) (day : Int) (day_of_week : String) : String :=
  "안녕하십니까, " ++ toString cardinal_number ++ "기 " ++ location ++ " 실습코치 " ++
    name ++ "입니다.\n\n" ++
    toString month ++ "월 " ++ toString day ++ "일(" ++ day_of_week ++ ") " ++
    toString nth_day ++ "일차 Wrap Up보고서를 "

/-- The resend body after the reason slot (src lines 56-60). -/
def resend_body_post (name : String) : String :=
  " 사유로 재송부드립니다.\n\n특이사항\n- 해당 사항 없음.\n\n감사합니다.\n" ++ name ++ " 드림."

/-- Substring containment: the pattern occurs contiguously inside the string. -/
def strContains (s pat : String) : Prop := pat.data <:+: s.data

instance (s pat : String) : Decidable (strContains s pat) :=
  inferInstanceAs (Decidable (pat.data <:+: s.data))

/-- Split a character list at newline characters, keeping empty segments:
the lines of a text. -/
def splitNl : List Char → List (List Char)
  | [] => [[]]
  | c :: rest =>
    if c = '\n' then [] :: splitNl rest
    else
      match splitNl rest with
      | [] => [[c]]
      | l :: ls => (c :: l) :: ls

/-- The lines of a string, i.e. its segments between newline characters. -/
def strLines (s : String) : List String := (splitNl s.data).map String.mk

/-- Models Python `str.strip()`: drop whitespace characters from both ends.
(CPython strips a slightly larger Unicode whitespace class; the difference is
immaterial to the inputs considered here.) -/
def pyStrip (s : String) : String :=
  String.mk (((s.data.dropWhile Char.isWhitespace).reverse.dropWhile Char.isWhitespace).reverse)

/-- After the first digit of a Python integer literal: digits with single
underscores allowed between digits ( `1_0` is legal, `1__0`, `1_` are not). -/
def pyDigitsRest : List Char → Bool
  | [] => true
  | '_' :: c :: rest => c.isDigit && pyDigitsRest rest
  | ['_'] => false
  | c :: rest => c.isDigit && pyDigitsRest rest

/-- A nonempty run of digits with single underscores between digits. -/
def pyDigitsOk : List Char → Bool
  | [] => false
  | c :: rest => c.isDigit && pyDigitsRest rest

/-- Decimal value of a digit run (underscores already removed). -/
def digitsToNat (l : List Char) : Nat :=
  l.foldl (fun n c => 10 * n + (c.toNat - 48)) 0

/-- Models CPython `int(str)` as used at src lines 293-296: optional
surrounding whitespace, an optional sign, then a nonempty digit run in which
single underscores may separate digits; anything else raises `ValueError`
(here: `none`).  (CPython additionally accepts non-ASCII decimal digits,
which the claims never exercise.) -/
def parsePyInt (s : String) : Option Int :=
  match (pyStrip s).data with
  | '+' :: rest =>
    if pyDigitsOk rest then some (Int.ofNat (digitsToNat (rest.filter (fun c => c != '_')))) else none
  | '-' :: rest =>
    if pyDigitsOk rest then some (-Int.ofNat (digitsToNat (rest.filter (fun c => c != '_')))) else none
  | t =>
    if pyDigitsOk t then some (Int.ofNat (digitsToNat (t.filter (fun c => c != '_')))) else none

/-- The validation-error taxonomy of `_validate_common_inputs` (src lines
287-304): the three distinct error dialogs. -/
inductive ValidationError where
  | EmptyName
  | NotANumber
  | InvalidWeekday
deriving Repr, DecidableEq

/-- The tuple `_validate_common_inputs` returns on success (src line 304). -/
structure ValidatedFields where
  cardinal : Int
  nth : Int
  month : Int
  day : Int
  dow : String
  name : String
deriving Repr, DecidableEq

/-- The raw widget values read by the handlers: the six validated fields plus
location, the resend flag and the resend reason. -/
structure RawInputs where
  name : String
  cardinal : String
  nth_day : String
  month : String
  day : String
  day_of_week : String
  location : String
  resend : Bool
  resend_reason : String
deriving Repr, DecidableEq

/-- `_validate_common_inputs` (src lines 287-304): name must be nonempty
after stripping; the four numeric fields must parse as Python ints (the
source tries them in order inside one `try`, and any failure yields the same
error, so collapsing the order is exact); the stripped weekday must be one of
`DAY_OF_WEEK_OPTIONS`.  The location is never inspected. -/
def validate_common_inputs (raw : RawInputs) : Except ValidationError ValidatedFields :=
  let name := pyStrip raw.name
  if name = "" then .error .EmptyName
  else
    match parsePyInt raw.cardinal, parsePyInt raw.nth_day, parsePyInt raw.month, parsePyInt raw.day with
    | some cardinal, some nth, some month, some day =>
      let dow := pyStrip raw.day_of_week
      if DAY_OF_WEEK_OPTIONS.contains dow then .ok ⟨cardinal, nth, month, day, dow, name⟩
      else .error .InvalidWeekday
    | _, _, _, _ => .error .NotANumber

/-- `on_generate` (src lines 306-324): validate, and on success render the
email, passing `location_var.get()` through unvalidated and the stripped
resend reason; on validation failure nothing is rendered. -/
def on_generate (raw : RawInputs) : Option (String × String) :=
  match validate_common_inputs raw with
  | .error _ => none
  | .ok v =>
    some (build_email v.cardinal raw.location v.name v.nth v.month v.day v.dow
      raw.resend (pyStrip raw.resend_reason))

/-- The storage-error taxonomy of the store operations. -/
inductive StorageError where
  | WriteFailed
  | ReadFailed
deriving Repr, DecidableEq

/-- A validated field set, as the spec's single entity (savedAt excluded:
it is assigned by the store). -/
structure FieldSet where
  cardinal_number : Int
  location : String
  name : String
  nth_day : Int
  month : Int
  day : Int
  day_of_week : String
  resend : Bool
  resend_reason : String
deriving Repr, DecidableEq

/-- A row of the `options` table (src lines 80-92).  `resend` is stored as an
INTEGER (`int(resend)`), `saved_at` as the `CURRENT_TIMESTAMP` default;
timestamps are abstracted as naturals whose order matches the chronological
order of the SQLite timestamp text. -/
structure OptionsRow where
  cardinal : Int
  location : String
  name : String
  nth_day : Int
  month : Int
  day : Int
  day_of_week : String
  resend : Int
  resend_reason : String
  saved_at : Nat
deriving Repr, DecidableEq

/-- The row `_save_options` inserts for a field set at time `now`
(src lines 112-138): `int(resend)` is 1 for `True` and 0 for `False`. -/
def FieldSet.toRow (fs : FieldSet) (now : Nat) : OptionsRow :=
  ⟨fs.cardinal_number, fs.location, fs.name, fs.nth_day, fs.month, fs.day,
    fs.day_of_week, if fs.resend then 1 else 0, fs.resend_reason, now⟩

/-- The settings database: whether the `options` table exists, and its rows in
insertion (rowid) order. -/
structure OptionsDB where
  table_exists : Bool
  rows : List OptionsRow
deriving Repr, DecidableEq

/-- A database file that has never been initialized. -/
def emptyDB : OptionsDB := ⟨false, []⟩

/-- `_init_db` (src lines 75-94): `CREATE TABLE IF NOT EXISTS` ensures the
table exists and touches nothing else. -/
def init_db (db : OptionsDB) : OptionsDB := { db with table_exists := true }

/-- `_save_options` (src lines 97-138): INSERT appends one row; inserting into
a missing table is an `sqlite3.OperationalError`, the spec's
`StorageError(kind=WriteFailed)`. -/
def save_options (fs : FieldSet) (now : Nat) (db : OptionsDB) :
    Except StorageError OptionsDB :=
  if db.table_exists then
    .ok { db with rows := db.rows ++ [ FieldSet.toRow fs now] }
  else
    .error .WriteFailed

/-- The record `_load_latest_options` returns: the nine selected columns
(src lines 147-156) — `saved_at` is not selected.  `resend` comes back as the
stored INTEGER. -/
structure LoadedOptions where
  cardinal : Int
  location : String
  name : String
  nth_day : Int
  month : Int
  day : Int
  day_of_week : String
  resend : Int
  resend_reason : String
deriving Repr, DecidableEq

/-- Projection of a stored row onto the nine selected columns. -/
def OptionsRow.toLoaded (r : OptionsRow) : LoadedOptions :=
  ⟨r.cardinal, r.location, r.name, r.nth_day, r.month, r.day, r.day_of_week,
    r.resend, r.resend_reason⟩

/-- Comparison step of `ORDER BY saved_at DESC LIMIT 1`: keep the later row. -/
def pickLater (acc x : OptionsRow) : OptionsRow :=
  if acc.saved_at < x.saved_at then x else acc

/-- `ORDER BY saved_at DESC LIMIT 1` over the rows (src lines 145-161): the
row with the maximum `saved_at`, or `none` for an empty table.  Among rows
with equal `saved_at` SQLite's order is unspecified; this model keeps the
earliest inserted of the maxima, on which no claim below depends. -/
def latest_row : List OptionsRow → Option OptionsRow
  | [] => none
  | r :: rs => some (rs.foldl pickLater r)

/-- `_load_latest_options` (src lines 141-162): `fetchone` of the query above;
`dict(row) if row else None`.  Reading from a missing table is an
`sqlite3.OperationalError`, the spec's `StorageError(kind=ReadFailed)`. -/
def load_latest_options (db : OptionsDB) : Except StorageError (Option LoadedOptions) :=
  if db.table_exists then
    .ok ((latest_row db.rows).map OptionsRow.toLoaded)
  else
    .error .ReadFailed

/-- How `on_load_options` (src lines 344-359) interprets a loaded record back
into field values: `bool(data["resend"])` is true exactly for a nonzero
integer, and `data.get("resend_reason", "") or ""` maps the empty string to
itself and keeps any other string. -/
def LoadedOptions.toFieldSet (r : LoadedOptions) : FieldSet :=
  ⟨r.cardinal, r.location, r.name, r.nth_day, r.month, r.day, r.day_of_week,
    r.resend != 0, if r.resend_reason = "" then "" else r.resend_reason⟩

/-- `on_save_options` (src lines 326-342): validate, and on success persist
the field set built from the validated fields, the unvalidated location, the
resend flag and the stripped reason; on validation failure nothing is saved. -/
def on_save_options (raw : RawInputs) (now : Nat) (db : OptionsDB) :
    Option (Except StorageError OptionsDB) :=
  match validate_common_inputs raw with
  | .error _ => none
  | .ok v =>
    some (save_options
      ⟨v.cardinal, raw.location, v.name, v.nth, v.month, v.day, v.dow,
        raw.resend, pyStrip raw.resend_reason⟩ now db)

/-- Database states reachable by the program: the fresh file, then any
interleaving of `_init_db` and successful `_save_options` calls. -/
inductive ReachableDB : OptionsDB → Prop where
  | empty : ReachableDB emptyDB
  | init : ∀ {db}, ReachableDB db → ReachableDB (init_db db)
  | save : ∀ {db db2 : OptionsDB} {fs : FieldSet} {t : Nat},
      ReachableDB db → save_options fs t db = .ok db2 → ReachableDB db2

/-- A sample validated field set (the spec's end-to-end example). -/
def sampleFs : FieldSet := ⟨13, "서울", "홍길동", 5, 3, 14, "목", false, ""⟩

/-- A second, different field set. -/
def sampleFs2 : FieldSet := ⟨14, "대전", "김철수", 6, 4, 15, "금", true, "오타 수정"⟩

/-- Sample raw inputs matching `sampleFs`. -/
def sampleRaw : RawInputs := ⟨"홍길동", "13", "5", "3", "14", "목", "서울", false, ""⟩

/-- Raw inputs whose name is blank and every other field invalid. -/
def blankNameRaw : RawInputs := ⟨"   ", "abc", "x", "", "??", "Sunday", "서울", true, " 이유 "⟩

/-- Raw inputs with resend set and a whitespace-only reason. -/
def resendRaw : RawInputs := ⟨"홍길동", "13", "5", "3", "14", "목", "서울", true, "   "⟩

/-- Raw inputs whose location is not one of `LOCATION_OPTIONS` while every
validated field is fine. -/
def badLocRaw : RawInputs := ⟨"홍길동", "13", "5", "3", "14", "목", "평양", false, ""⟩

theorem strContains_of_eq_append (s a p b : String) (h : s = a ++ p ++ b) :
    strContains s p := by
  subst h
  exact ⟨a.data, b.data, by simp [String.data_append]⟩

theorem build_email_resend_snd (c : Int) (loc nm : String) (nth m d : Int) (dow r : String) :
    (build_email c loc nm nth m d dow true r).2
      = resend_body_pre c loc nm nth m d dow ++
        (if r = "" then DEFAULT_RESEND_REASON else r) ++ resend_body_post nm := by
  by_cases hr : r = "" <;>
    (apply String.ext;
     simp [build_email, resend_body_pre, resend_body_post, DEFAULT_RESEND_REASON, hr,
       String.data_append])

theorem pickLater_eq_or (a x : OptionsRow) : pickLater a x = a ∨ pickLater a x = x := by
  unfold pickLater
  split
  · right; rfl
  · left; rfl

theorem foldl_pickLater_mem (l : List OptionsRow) (a : OptionsRow) :
    l.foldl pickLater a = a ∨ l.foldl pickLater a ∈ l := by
  induction l generalizing a with
  | nil => left; rfl
  | cons x xs ih =>
    simp only [List.foldl_cons, List.mem_cons]
    rcases ih (pickLater a x) with h | h
    · rcases pickLater_eq_or a x with h2 | h2
      · left; rw [h, h2]
      · right; left; rw [h, h2]
    · right; right; exact h

theorem latest_row_mem {l : List OptionsRow} {r : OptionsRow}
    (h : latest_row l = some r) : r ∈ l := by
  cases l with
  | nil => simp [latest_row] at h
  | cons a rs =>
    simp only [latest_row, Option.some.injEq] at h
    subst h
    rcases foldl_pickLater_mem rs a with h2 | h2
    · rw [h2]; exact List.mem_cons_self a rs
    · exact List.mem_cons_of_mem a h2

theorem latest_row_append_max (l : List OptionsRow) (b : OptionsRow)
    (h : ∀ r ∈ l, r.saved_at < b.saved_at) :
    latest_row (l ++ [b]) = some b := by
  cases l with
  | nil => rfl
  | cons a rs =>
    have hstep : latest_row ((a :: rs) ++ [b]) = some ((rs ++ [b]).foldl pickLater a) := rfl
    rw [hstep, List.foldl_append]
    have hlt : (rs.foldl pickLater a).saved_at < b.saved_at := by
      rcases foldl_pickLater_mem rs a with he | hm
      · rw [he]; exact h a (List.mem_cons_self a rs)
      · exact h _ (List.mem_cons_of_mem a hm)
    simp [pickLater, hlt]

theorem decode_encode (fs : FieldSet) (t : Nat) :
    LoadedOptions.toFieldSet (( FieldSet.toRow fs t).toLoaded) = fs := by
  obtain ⟨c, loc, nm, nth, m, d, dow, rs, rr⟩ := fs
  cases rs <;> by_cases hrr : rr = "" <;>
    simp [ LoadedOptions.toFieldSet, OptionsRow.toLoaded, FieldSet.toRow, hrr]

theorem loaded_inj {fs1 fs2 : FieldSet} {t1 t2 : Nat}
    (h : ( FieldSet.toRow fs1 t1).toLoaded = ( FieldSet.toRow fs2 t2).toLoaded) :
    fs1 = fs2 := by
  have h2 := congrArg LoadedOptions.toFieldSet h
  rwa [decode_encode, decode_encode] at h2

/-- C1 is false as stated: for the example field set the literal second line
of the body is the empty separator line between the greeting and the
attachment sentence, not the attachment sentence itself. -/
theorem c1_second_line_counterexample :
    (strLines (build_email 13 "서울" "홍길동" 5 3 14 "목" false "").2)[1]? = some "" ∧
    ("" : String) ≠ "3월 14일(목) 5일차 Wrap Up 보고서를 첨부하여 송부드립니다." := by
  constructor
  · decide
  · decide

/-- C1 (amended): the example field set yields exactly the claimed title, and
the attachment sentence is the third line of the body (its second non-blank
line), the literal second line being the blank separator. -/
theorem c1_title_and_third_line :
    (build_email 13 "서울" "홍길동" 5 3 14 "목" false "").1
      = "[SSAFY] 13기 서울 실습코치 홍길동 5일차 Wrap Up 송부" ∧
    (strLines (build_email 13 "서울" "홍길동" 5 3 14 "목" false "").2)[2]?
      = some "3월 14일(목) 5일차 Wrap Up 보고서를 첨부하여 송부드립니다." := by
  constructor
  · rfl
  · decide

/-- C2: saving a field set to a freshly initialized store succeeds, appending
exactly one row stamped with the save time `t`, and loading back returns that
row's nine columns, which decode to the saved field set in every field; the
store-assigned `saved_at` is at least the time `t0` observed just before the
save. -/
theorem c2_roundtrip (fs : FieldSet) (t0 t : Nat) (ht : t0 ≤ t) :
    save_options fs t (init_db emptyDB) = .ok ⟨true, [ FieldSet.toRow fs t]⟩ ∧
    load_latest_options ⟨true, [ FieldSet.toRow fs t]⟩
      = .ok (some (( FieldSet.toRow fs t).toLoaded)) ∧
    LoadedOptions.toFieldSet (( FieldSet.toRow fs t).toLoaded) = fs ∧
    t0 ≤ ( FieldSet.toRow fs t).saved_at :=
  ⟨rfl, rfl, decode_encode fs t, ht⟩

/-- C2 witness: the example field set, saved at time 10 after observing
time 7. -/
theorem c2_roundtrip_witness :
    save_options sampleFs 10 (init_db emptyDB) = .ok ⟨true, [ FieldSet.toRow sampleFs 10]⟩ ∧
    load_latest_options ⟨true, [ FieldSet.toRow sampleFs 10]⟩
      = .ok (some (( FieldSet.toRow sampleFs 10).toLoaded)) ∧
    LoadedOptions.toFieldSet (( FieldSet.toRow sampleFs 10).toLoaded) = sampleFs ∧
    7 ≤ ( FieldSet.toRow sampleFs 10).saved_at :=
  c2_roundtrip sampleFs 7 10 (by decide)

/-- C3: on an initialized store whose existing rows are no newer than the
first save time, saving fs1 at t1 and then fs2 at a strictly later t2 makes
loadLatest return fs2's record — the row with the maximum saved_at — and,
since fs1 ≠ fs2, that record differs from fs1's. -/
theorem c3_latest_wins (db : OptionsDB) (fs1 fs2 : FieldSet) (t1 t2 : Nat)
    (hne : fs1 ≠ fs2) (htab : db.table_exists = true)
    (hold : ∀ r ∈ db.rows, r.saved_at ≤ t1) (ht : t1 < t2) :
    save_options fs1 t1 db
      = .ok { db with rows := db.rows ++ [ FieldSet.toRow fs1 t1] } ∧
    save_options fs2 t2 { db with rows := db.rows ++ [ FieldSet.toRow fs1 t1] }
      = .ok { db with rows := (db.rows ++ [ FieldSet.toRow fs1 t1]) ++ [ FieldSet.toRow fs2 t2] } ∧
    load_latest_options
        { db with rows := (db.rows ++ [ FieldSet.toRow fs1 t1]) ++ [ FieldSet.toRow fs2 t2] }
      = .ok (some (( FieldSet.toRow fs2 t2).toLoaded)) ∧
    ( FieldSet.toRow fs2 t2).toLoaded ≠ ( FieldSet.toRow fs1 t1).toLoaded := by
  obtain ⟨te, rows⟩ := db
  have hte : te = true := htab
  subst hte
  refine ⟨rfl, rfl, ?_, ?_⟩
  · have hmax : latest_row ((rows ++ [ FieldSet.toRow fs1 t1]) ++ [ FieldSet.toRow fs2 t2])
        = some ( FieldSet.toRow fs2 t2) := by
      apply latest_row_append_max
      intro r hr
      show r.saved_at < t2
      rcases List.mem_append.mp hr with hl | hr1
      · exact lt_of_le_of_lt (hold r hl) ht
      · have hx : r = FieldSet.toRow fs1 t1 := by simpa using hr1
        rw [hx]; exact ht
    show Except.ok ((latest_row ((rows ++ [ FieldSet.toRow fs1 t1]) ++ [ FieldSet.toRow fs2 t2])).map
        OptionsRow.toLoaded) = _
    rw [hmax]
    rfl
  · intro h
    exact hne (loaded_inj h).symm

/-- C3 witness: the two distinct sample field sets saved at times 5 and 6 on
a freshly initialized empty store. -/
theorem c3_latest_wins_witness :
    save_options sampleFs 5 ⟨true, []⟩ = .ok ⟨true, [ FieldSet.toRow sampleFs 5]⟩ ∧
    save_options sampleFs2 6 ⟨true, [ FieldSet.toRow sampleFs 5]⟩
      = .ok ⟨true, [ FieldSet.toRow sampleFs 5, FieldSet.toRow sampleFs2 6]⟩ ∧
    load_latest_options ⟨true, [ FieldSet.toRow sampleFs 5, FieldSet.toRow sampleFs2 6]⟩
      = .ok (some (( FieldSet.toRow sampleFs2 6).toLoaded)) ∧
    ( FieldSet.toRow sampleFs2 6).toLoaded ≠ ( FieldSet.toRow sampleFs 5).toLoaded :=
  c3_latest_wins ⟨true, []⟩ sampleFs sampleFs2 5 6 (by decide) rfl (by simp) (by decide)

/-- C4: with the resend flag set and a blank reason — which reaches the
composer as the empty string, since the generate handler passes the stripped
reason — the body contains the fixed default reason 첨부 오류로 인한 재송부. -/
theorem c4_blank_reason_default (c : Int) (loc nm : String) (nth m d : Int)
    (dow : String) (raw : RawInputs) (hre : raw.resend = true)
    (hr : pyStrip raw.resend_reason = "") :
    strContains (build_email c loc nm nth m d dow true "").2 DEFAULT_RESEND_REASON ∧
    ∀ p, on_generate raw = some p → strContains p.2 DEFAULT_RESEND_REASON := by
  have hbase : ∀ (c2 : Int) (loc2 nm2 : String) (nth2 m2 d2 : Int) (dow2 : String),
      strContains (build_email c2 loc2 nm2 nth2 m2 d2 dow2 true "").2 DEFAULT_RESEND_REASON := by
    intro c2 loc2 nm2 nth2 m2 d2 dow2
    apply strContains_of_eq_append _ (resend_body_pre c2 loc2 nm2 nth2 m2 d2 dow2) _
      (resend_body_post nm2)
    rw [build_email_resend_snd]
    simp
  refine ⟨hbase c loc nm nth m d dow, ?_⟩
  intro p hgen
  cases hv : validate_common_inputs raw with
  | error e => simp [on_generate, hv] at hgen
  | ok v =>
    simp only [on_generate, hv] at hgen
    injection hgen with hgen2
    rw [← hgen2, hre, hr]
    exact hbase v.cardinal raw.location v.name v.nth v.month v.day v.dow

/-- C4 witness: the composer at the example fields with resend set and empty
reason, via raw inputs whose reason is whitespace only. -/
theorem c4_blank_reason_default_witness :
    strContains (build_email 13 "서울" "홍길동" 5 3 14 "목" true "").2 DEFAULT_RESEND_REASON :=
  (c4_blank_reason_default 13 "서울" "홍길동" 5 3 14 "목" resendRaw rfl (by decide)).1

/-- C5 is false as stated: taking the non-blank reason to be the default text
itself, the produced body does contain the default reason. -/
theorem c5_default_substring_counterexample :
    DEFAULT_RESEND_REASON ≠ "" ∧
    strContains (build_email 13 "서울" "홍길동" 5 3 14 "목" true DEFAULT_RESEND_REASON).2
      DEFAULT_RESEND_REASON := by
  constructor
  · decide
  · decide

/-- C5 (amended): with the resend flag set and a non-blank reason R, the body
contains R verbatim, spliced into the reason slot in place of the default;
the default text itself can still occur as a substring when R (or another
interpolated field) contains it. -/
theorem c5_reason_verbatim (c : Int) (loc nm : String) (nth m d : Int)
    (dow r : String) (hr : r ≠ "") :
    (build_email c loc nm nth m d dow true r).2
      = resend_body_pre c loc nm nth m d dow ++ r ++ resend_body_post nm ∧
    strContains (build_email c loc nm nth m d dow true r).2 r := by
  have h := build_email_resend_snd c loc nm nth m d dow r
  rw [if_neg hr] at h
  exact ⟨h, strContains_of_eq_append _ _ _ _ h⟩

/-- C5 witness: a concrete non-blank reason at the example fields. -/
theorem c5_reason_verbatim_witness :
    (build_email 13 "서울" "홍길동" 5 3 14 "목" true "다른 사유").2
      = resend_body_pre 13 "서울" "홍길동" 5 3 14 "목" ++ "다른 사유" ++ resend_body_post "홍길동" ∧
    strContains (build_email 13 "서울" "홍길동" 5 3 14 "목" true "다른 사유").2 "다른 사유" :=
  c5_reason_verbatim 13 "서울" "홍길동" 5 3 14 "목" "다른 사유" (by decide)

/-- C6 is false as stated: the validator accepts inputs whose location 평양
lies outside LOCATION_OPTIONS — it never inspects the location — and the
generate handler renders the email with that location. -/
theorem c6_location_unchecked_counterexample :
    LOCATION_OPTIONS.contains "평양" = false ∧
    validate_common_inputs badLocRaw = .ok ⟨13, 5, 3, 14, "목", "홍길동"⟩ ∧
    on_generate badLocRaw = some (build_email 13 "평양" "홍길동" 5 3 14 "목" false "") := by
  refine ⟨by decide, rfl, rfl⟩

/-- C6 (amended): validation is independent of the location field, and the
generate handler passes the location through to the composer unchanged;
membership of location in LOCATION_OPTIONS is enforced only by the read-only
selection widget, not by the validator. -/
theorem c6_location_passthrough (raw : RawInputs) (loc : String) (v : ValidatedFields)
    (hv : validate_common_inputs raw = .ok v) :
    validate_common_inputs { raw with location := loc } = validate_common_inputs raw ∧
    on_generate { raw with location := loc }
      = some (build_email v.cardinal loc v.name v.nth v.month v.day v.dow
          raw.resend (pyStrip raw.resend_reason)) := by
  have h1 : validate_common_inputs { raw with location := loc } = .ok v := hv
  refine ⟨rfl, ?_⟩
  simp [on_generate, h1]

/-- C6 witness: the sample raw inputs with their location replaced by 평양. -/
theorem c6_location_passthrough_witness :
    validate_common_inputs { sampleRaw with location := "평양" }
      = validate_common_inputs sampleRaw ∧
    on_generate { sampleRaw with location := "평양" }
      = some (build_email 13 "평양" "홍길동" 5 3 14 "목" false (pyStrip "")) :=
  c6_location_passthrough sampleRaw "평양" ⟨13, 5, 3, 14, "목", "홍길동"⟩ rfl

/-- C7: a name that is empty after stripping makes the validator fail with
EmptyName regardless of every other field, and neither the generate handler
nor the save handler performs its operation. -/
theorem c7_empty_name_rejected (raw : RawInputs) (now : Nat) (db : OptionsDB)
    (h : pyStrip raw.name = "") :
    validate_common_inputs raw = .error .EmptyName ∧
    on_generate raw = none ∧
    on_save_options raw now db = none := by
  have hval : validate_common_inputs raw = .error .EmptyName := by
    simp [validate_common_inputs, h]
  refine ⟨hval, ?_, ?_⟩
  · simp [on_generate, hval]
  · simp [on_save_options, hval]

/-- C7 witness: blank name with every other field invalid. -/
theorem c7_empty_name_rejected_witness :
    validate_common_inputs blankNameRaw = .error .EmptyName ∧
    on_generate blankNameRaw = none ∧
    on_save_options blankNameRaw 0 emptyDB = none :=
  c7_empty_name_rejected blankNameRaw 0 emptyDB (by decide)

/-- C8: loading from a freshly initialized, never-saved-to store yields the
explicit empty result — a successful `none`, not a storage error. -/
theorem c8_empty_store_loads_none :
    load_latest_options (init_db emptyDB) = .ok none := rfl

/-- C9: on an initialized store, save appends exactly one row, leaving the
previously saved rows unchanged as a prefix; init_db is idempotent and never
erases existing rows. -/
theorem c9_append_only_init_idempotent (db : OptionsDB) (fs : FieldSet) (t : Nat)
    (htab : db.table_exists = true) :
    save_options fs t db = .ok { db with rows := db.rows ++ [ FieldSet.toRow fs t] } ∧
    (db.rows ++ [ FieldSet.toRow fs t]).length = db.rows.length + 1 ∧
    (db.rows ++ [ FieldSet.toRow fs t]).take db.rows.length = db.rows ∧
    init_db (init_db db) = init_db db ∧
    (init_db db).rows = db.rows := by
  refine ⟨?_, by simp, List.take_left db.rows [ FieldSet.toRow fs t], rfl, rfl⟩
  obtain ⟨te, rows⟩ := db
  have hte : te = true := htab
  subst hte
  rfl

/-- C9 witness: saving the sample field set at time 3 to an initialized empty
store. -/
theorem c9_append_only_init_idempotent_witness :
    save_options sampleFs 3 ⟨true, []⟩ = .ok ⟨true, [ FieldSet.toRow sampleFs 3]⟩ ∧
    [ FieldSet.toRow sampleFs 3].length = 0 + 1 ∧
    [ FieldSet.toRow sampleFs 3].take 0 = ([] : List OptionsRow) ∧
    init_db (init_db ⟨true, []⟩) = init_db ⟨true, []⟩ ∧
    (init_db (⟨true, []⟩ : OptionsDB)).rows = ([] : List OptionsRow) :=
  c9_append_only_init_idempotent ⟨true, []⟩ sampleFs 3 rfl

/-- C10: in every reachable store state the stored resend column is the
integer 0 or 1 — save writes `int(resend)`, 1 for True and 0 for False — and
loadLatest returns it as that integer. -/
theorem c10_resend_zero_or_one (db : OptionsDB) (h : ReachableDB db) :
    (∀ r ∈ db.rows, r.resend = 0 ∨ r.resend = 1) ∧
    (∀ lr, load_latest_options db = .ok (some lr) → lr.resend = 0 ∨ lr.resend = 1) ∧
    (∀ fs : FieldSet, ∀ t : Nat, ( FieldSet.toRow fs t).resend = if fs.resend then 1 else 0) := by
  have hrows : ∀ r ∈ db.rows, r.resend = 0 ∨ r.resend = 1 := by
    induction h with
    | empty => intro r hr; simp [emptyDB] at hr
    | init h2 ih => intro r hr; exact ih r hr
    | @save dba dbb fs t h2 hsave ih =>
      intro r hr
      unfold save_options at hsave
      split at hsave
      · injection hsave with h3
        rw [← h3] at hr
        rcases List.mem_append.mp hr with h4 | h4
        · exact ih r h4
        · have h5 : r = FieldSet.toRow fs t := by simpa using h4
          rw [h5]
          cases hfs : fs.resend <;> simp [ FieldSet.toRow, hfs]
      · simp at hsave
  refine ⟨hrows, ?_, fun fs t => rfl⟩
  intro lr hload
  unfold load_latest_options at hload
  split at hload
  · injection hload with h3
    cases hl : latest_row db.rows with
    | none => rw [hl] at h3; simp at h3
    | some r0 =>
      rw [hl] at h3
      simp only [Option.map_some'] at h3
      injection h3 with h4
      have hr0 := latest_row_mem hl
      rcases hrows r0 hr0 with h5 | h5
      · left; rw [← h4]; exact h5
      · right; rw [← h4]; exact h5
  · simp at hload

/-- C10 witness: the store reached by initializing and saving the resend
sample field set at time 4. -/
theorem c10_resend_zero_or_one_witness :
    (∀ r ∈ (⟨true, [ FieldSet.toRow sampleFs2 4]⟩ : OptionsDB).rows,
      r.resend = 0 ∨ r.resend = 1) ∧
    (∀ lr, load_latest_options ⟨true, [ FieldSet.toRow sampleFs2 4]⟩ = .ok (some lr) →
      lr.resend = 0 ∨ lr.resend = 1) ∧
    (∀ fs : FieldSet, ∀ t : Nat, ( FieldSet.toRow fs t).resend = if fs.resend then 1 else 0) :=
  c10_resend_zero_or_one ⟨true, [ FieldSet.toRow sampleFs2 4]⟩
    (@ReachableDB.save (init_db emptyDB) ⟨true, [ FieldSet.toRow sampleFs2 4]⟩ sampleFs2 4
      (ReachableDB.init ReachableDB.empty) rfl)
